import Mathlib

/-!
Verification of the flight-search-service resilience and caching core.

The definitions below shallowly embed the TypeScript sources:
* the circuit-breaker and retry state machines live in the third-party
  `cockatiel` library (only their configuration sites are in `src/`), so those
  two are modelled from the specification;
* the cache service, the TTL selector and the token service are translated
  directly from `src/infra/cache/cache.service.ts`,
  `SearchService.calculateCacheTtl` and `AmadeusTokenService.getAccessToken`.
-/

/-! ## Circuit breaker -/

/-- The three breaker states (spec §3 `CircuitBreakerState.status`). -/
inductive BreakerStatus where
  | closed
  | opened
  | halfOpen
deriving DecidableEq, Repr

/-- Breaker configuration (spec §3): `failureThreshold`, `halfOpenCooldownMs`,
`successThreshold`. -/
structure CircuitBreakerConfig where
  failureThreshold : Nat
  halfOpenCooldownMs : Nat
  successThreshold : Nat
deriving DecidableEq, Repr

/-- Mutable breaker state (spec §3): status, the two consecutive counters and
the `openedAt` timestamp (absent unless the breaker is open). -/
structure CircuitBreakerState where
  status : BreakerStatus
  consecutiveFailures : Nat
  consecutiveHalfOpenSuccesses : Nat
  openedAt : Option Nat
deriving DecidableEq, Repr

/-- Outcome of one invocation of the wrapped work. -/
inductive Outcome where
  | success
  | failure
deriving DecidableEq, Repr

/-- Result of one call through the breaker: either rejected without invoking
the work (`CircuitOpenFailure`), or the work ran once with the given outcome. -/
inductive CallResult where
  | circuitOpen
  | completed (o : Outcome)
deriving DecidableEq, Repr

/-- How many times the wrapped work was invoked by a call with this result. -/
def CallResult.invocations : CallResult → Nat
  | .circuitOpen => 0
  | .completed _ => 1

/-- Modelled from the spec: probe handling while half-open (spec §4.3).
"Probe success increments consecutiveHalfOpenSuccesses; reaching
successThreshold closes the breaker and resets counters. Probe failure
immediately reopens and resets openedAt." The `cockatiel` state machine that
implements this is a third-party dependency, absent from `src/`. -/
def probeStep (cfg : CircuitBreakerConfig) (st : CircuitBreakerState) (now : Nat)
    (o : Outcome) : CircuitBreakerState :=
  match o with
  | .success =>
      let s := st.consecutiveHalfOpenSuccesses + 1
      if cfg.successThreshold ≤ s then
        { status := .closed, consecutiveFailures := 0,
          consecutiveHalfOpenSuccesses := 0, openedAt := none }
      else
        { st with status := .halfOpen, consecutiveHalfOpenSuccesses := s }
  | .failure =>
      { status := .opened, consecutiveFailures := 0,
        consecutiveHalfOpenSuccesses := 0, openedAt := some now }

/-- Modelled from the spec: one call through the breaker (spec §4.3).
"If Open and cooldown not elapsed, fail immediately without invoking work. If
Open and cooldown elapsed, lazily move to HalfOpen and allow exactly one
probe. … In Closed, failures increment consecutiveFailures (reaching
failureThreshold opens it); any success resets the counter to zero." The
outcome of the wrapped work, when it is invoked, is the `work` argument. -/
def breakerCall (cfg : CircuitBreakerConfig) (st : CircuitBreakerState) (now : Nat)
    (work : Outcome) : CallResult × CircuitBreakerState :=
  match st.status with
  | .closed =>
      match work with
      | .success => (.completed .success, { st with consecutiveFailures := 0 })
      | .failure =>
          let f := st.consecutiveFailures + 1
          if cfg.failureThreshold ≤ f then
            (.completed .failure,
              { status := .opened, consecutiveFailures := f,
                consecutiveHalfOpenSuccesses := 0, openedAt := some now })
          else
            (.completed .failure, { st with consecutiveFailures := f })
  | .opened =>
      match st.openedAt with
      | some t =>
          if now < t + cfg.halfOpenCooldownMs then
            (.circuitOpen, st)
          else
            (.completed work, probeStep cfg { st with status := .halfOpen } now work)
      | none => (.circuitOpen, st)
  | .halfOpen => (.completed work, probeStep cfg st now work)

/-- Fold a timed sequence of work outcomes through the breaker. -/
def breakerRun (cfg : CircuitBreakerConfig) (st : CircuitBreakerState) :
    List (Nat × Outcome) → CircuitBreakerState
  | [] => st
  | (now, o) :: rest => breakerRun cfg (breakerCall cfg st now o).2 rest

/-- The breaker state created lazily per key: closed with zeroed counters. -/
def freshBreakerState : CircuitBreakerState :=
  { status := .closed, consecutiveFailures := 0,
    consecutiveHalfOpenSuccesses := 0, openedAt := none }

/-- `createCircuitBreakerPolicy` defaults
(`src/infra/resilience/policies/circuit-breaker.policy.ts` lines 7-19), with
the `successThreshold` the spec's configuration surface declares; the default
config object in `composePolicy` (`part_013` lines 38-43) carries
`successThreshold: 1`. -/
def defaultCircuitBreakerConfig : CircuitBreakerConfig :=
  { failureThreshold := 3, halfOpenCooldownMs := 10000, successThreshold := 1 }

/-! ## Claims C1-C3 -/

/-- C1. In the HalfOpen state the breaker closes exactly when the consecutive
probe-success count reaches `successThreshold`; any probe failure immediately
reopens it with both counters reset and `openedAt` restamped. With
successThreshold = 2 and a fresh half-open state, one probe success leaves the
breaker HalfOpen and a second consecutive success closes it. -/
theorem C1_halfOpen_closes_after_successThreshold
    (cfg : CircuitBreakerConfig) (st : CircuitBreakerState) (now : Nat)
    (h : st.status = .halfOpen) :
    (((breakerCall cfg st now .success).2.status = .closed ↔
        cfg.successThreshold ≤ st.consecutiveHalfOpenSuccesses + 1) ∧
      (¬ cfg.successThreshold ≤ st.consecutiveHalfOpenSuccesses + 1 →
        (breakerCall cfg st now .success).2.status = .halfOpen ∧
        (breakerCall cfg st now .success).2.consecutiveHalfOpenSuccesses =
          st.consecutiveHalfOpenSuccesses + 1) ∧
      ((breakerCall cfg st now .failure).2 =
        { status := .opened, consecutiveFailures := 0,
          consecutiveHalfOpenSuccesses := 0, openedAt := some now })) ∧
    (∀ t1 t2 : Nat, ∀ st0 : CircuitBreakerState,
      st0.status = .halfOpen → st0.consecutiveHalfOpenSuccesses = 0 →
      ∀ cfg2 : CircuitBreakerConfig, cfg2.successThreshold = 2 →
        (breakerCall cfg2 st0 t1 .success).2.status = .halfOpen ∧
        (breakerRun cfg2 st0 [(t1, .success), (t2, .success)]).status = .closed) := by
  constructor
  · refine ⟨?_, ?_, ?_⟩
    · simp only [breakerCall, h, probeStep]
      by_cases hs : cfg.successThreshold ≤ st.consecutiveHalfOpenSuccesses + 1
      · simp [hs]
      · simp [hs]
    · intro hs
      simp [breakerCall, h, probeStep, hs]
    · simp [breakerCall, h, probeStep]
  · intro t1 t2 st0 h0 h0c cfg2 h2
    have hstep : (breakerCall cfg2 st0 t1 .success).2 =
        { st0 with status := .halfOpen, consecutiveHalfOpenSuccesses := 1 } := by
      simp [breakerCall, h0, probeStep, h0c, h2]
    refine ⟨by rw [hstep], ?_⟩
    simp only [breakerRun, hstep]
    simp [breakerCall, probeStep, h2]

/-- Witness for C1 at a concrete half-open state and configuration. -/
theorem C1_witness :
    (breakerCall ⟨3, 10000, 2⟩ ⟨.halfOpen, 0, 0, some 5⟩ 20 .success).2.status = .halfOpen ∧
    (breakerRun ⟨3, 10000, 2⟩ ⟨.halfOpen, 0, 0, some 5⟩
      [(20, .success), (30, .success)]).status = .closed ∧
    (breakerCall ⟨3, 10000, 2⟩ ⟨.halfOpen, 1, 1, some 5⟩ 20 .failure).2 =
      { status := .opened, consecutiveFailures := 0,
        consecutiveHalfOpenSuccesses := 0, openedAt := some 20 } := by
  have hgen := (C1_halfOpen_closes_after_successThreshold
    ⟨3, 10000, 2⟩ ⟨.halfOpen, 1, 1, some 5⟩ 20 rfl).1.2.2
  have hsc := (C1_halfOpen_closes_after_successThreshold
    ⟨3, 10000, 2⟩ ⟨.halfOpen, 0, 0, some 5⟩ 20 rfl).2 20 30
    ⟨.halfOpen, 0, 0, some 5⟩ rfl rfl ⟨3, 10000, 2⟩ rfl
  exact ⟨hsc.1, hsc.2, hgen⟩

/-- C2. In the Closed state a failure opens the breaker exactly when the
consecutive-failure count reaches `failureThreshold`, and any success resets
the count to zero. With failureThreshold = 3 from a fresh closed state, the
sequence fail, fail, success, fail, fail leaves the breaker Closed, and one
more consecutive failure opens it. -/
theorem C2_closed_opens_on_Fth_consecutive_failure
    (cfg : CircuitBreakerConfig) (st : CircuitBreakerState) (now : Nat)
    (h : st.status = .closed) :
    (((breakerCall cfg st now .failure).2.status = .opened ↔
        cfg.failureThreshold ≤ st.consecutiveFailures + 1) ∧
      (¬ cfg.failureThreshold ≤ st.consecutiveFailures + 1 →
        (breakerCall cfg st now .failure).2.status = .closed ∧
        (breakerCall cfg st now .failure).2.consecutiveFailures =
          st.consecutiveFailures + 1) ∧
      ((breakerCall cfg st now .success).2.status = .closed ∧
        (breakerCall cfg st now .success).2.consecutiveFailures = 0)) ∧
    (∀ cfg3 : CircuitBreakerConfig, cfg3.failureThreshold = 3 →
      ∀ ts : Nat,
        (breakerRun cfg3 freshBreakerState
          [(ts, .failure), (ts, .failure), (ts, .success),
           (ts, .failure), (ts, .failure)]).status = .closed ∧
        (breakerRun cfg3 freshBreakerState
          [(ts, .failure), (ts, .failure), (ts, .success),
           (ts, .failure), (ts, .failure), (ts, .failure)]).status = .opened) := by
  constructor
  · refine ⟨?_, ?_, ?_⟩
    · simp only [breakerCall, h]
      by_cases hf : cfg.failureThreshold ≤ st.consecutiveFailures + 1
      · simp [hf]
      · simp [hf, h]
    · intro hf
      simp [breakerCall, h, hf]
    · simp [breakerCall, h]
  · intro cfg3 h3 ts
    obtain ⟨a, b, c⟩ := cfg3
    simp only [CircuitBreakerConfig.mk.injEq] at h3
    subst h3
    constructor
    · simp [breakerRun, breakerCall, freshBreakerState]
    · simp [breakerRun, breakerCall, freshBreakerState, probeStep]

/-- Witness for C2 at the default configuration (failureThreshold 3). -/
theorem C2_witness :
    (breakerRun defaultCircuitBreakerConfig freshBreakerState
      [(0, .failure), (0, .failure), (0, .success),
       (0, .failure), (0, .failure)]).status = .closed ∧
    (breakerRun defaultCircuitBreakerConfig freshBreakerState
      [(0, .failure), (0, .failure), (0, .success),
       (0, .failure), (0, .failure), (0, .failure)]).status = .opened := by
  exact (C2_closed_opens_on_Fth_consecutive_failure defaultCircuitBreakerConfig
    freshBreakerState 0 rfl).2 defaultCircuitBreakerConfig rfl 0

/-- C3. While the breaker is Open, every call made strictly before
`openedAt + halfOpenCooldownMs` is rejected with a circuit-open failure, the
wrapped work is not invoked, and the state is unchanged; the first call at or
after the cooldown deadline is let through as a single probe (the work runs
exactly once). -/
theorem C3_open_rejects_until_cooldown
    (cfg : CircuitBreakerConfig) (st : CircuitBreakerState) (now t : Nat)
    (h : st.status = .opened) (ht : st.openedAt = some t) :
    (now < t + cfg.halfOpenCooldownMs →
      breakerCall cfg st now .success = (.circuitOpen, st) ∧
      breakerCall cfg st now .failure = (.circuitOpen, st) ∧
      (breakerCall cfg st now .success).1.invocations = 0) ∧
    (t + cfg.halfOpenCooldownMs ≤ now →
      ∀ o : Outcome, (breakerCall cfg st now o).1 = .completed o ∧
        (breakerCall cfg st now o).1.invocations = 1) := by
  constructor
  · intro hlt
    simp [breakerCall, h, ht, hlt, CallResult.invocations]
  · intro hge o
    have hnot : ¬ now < t + cfg.halfOpenCooldownMs := not_lt.mpr hge
    simp [breakerCall, h, ht, hnot, CallResult.invocations]

/-- Witness for C3: an open breaker with cooldown 10000 opened at time 0
rejects at time 9999 without running the work, and probes at time 10000. -/
theorem C3_witness :
    breakerCall ⟨3, 10000, 1⟩ ⟨.opened, 3, 0, some 0⟩ 9999 .success =
      (.circuitOpen, ⟨.opened, 3, 0, some 0⟩) ∧
    (breakerCall ⟨3, 10000, 1⟩ ⟨.opened, 3, 0, some 0⟩ 10000 .success).1 =
      .completed .success := by
  refine ⟨((C3_open_rejects_until_cooldown ⟨3, 10000, 1⟩ ⟨.opened, 3, 0, some 0⟩
    9999 0 rfl rfl).1 (by decide)).1, ?_⟩
  exact ((C3_open_rejects_until_cooldown ⟨3, 10000, 1⟩ ⟨.opened, 3, 0, some 0⟩
    10000 0 rfl rfl).2 (by decide) .success).1

/-! ## Retry scheduler -/

/-- A provider failure as the retry predicate sees it; the status carries the
HTTP status of the provider response (`ProviderApiFailure`, spec §7). -/
structure ProviderError where
  status : Nat
deriving DecidableEq, Repr

/-- Retry configuration (`createRetryPolicy`,
`src/infra/resilience/policies/retry.policy.ts` lines 24-54): `maxAttempts`,
`baseDelayMs`, `maxDelayMs`, `multiplier`, and the optional retry-eligibility
predicate `condition`. -/
structure RetryConfig where
  maxAttempts : Nat
  baseDelayMs : Nat
  maxDelayMs : Nat
  multiplier : Nat
  condition : Option (ProviderError → Bool)

/-- From `createRetryPolicy`: a custom `condition` yields `handleWhen(condition)`,
an absent condition yields `handleAll`, which treats every failure as
retry-eligible. -/
def shouldHandle (cfg : RetryConfig) (e : ProviderError) : Bool :=
  match cfg.condition with
  | some p => p e
  | none => true

/-- Modelled from the spec: the backoff delay before attempt `n` (spec §4.2).
"Delay for attempt n≥2: min(baseDelayMs × multiplier^(n-2), maxDelayMs);
attempt 1 has no delay." The `cockatiel` `ExponentialBackoff` that realizes
this is a third-party dependency, absent from `src/`. -/
def retryDelay (cfg : RetryConfig) (n : Nat) : Nat :=
  if n ≤ 1 then 0 else min (cfg.baseDelayMs * cfg.multiplier ^ (n - 2)) cfg.maxDelayMs

/-- Modelled from the spec: the retry loop (spec §4.2), "repeats execution
until success or exhaustion", consulting the eligibility predicate per
failure; exhaustion surfaces the last observed failure. `work n` is the
outcome of attempt `n` (1-based); `fuel` is the number of attempts still
allowed after the current one. Returns the surfaced result and the index of
the last attempt that ran (= number of invocations of the work). -/
def retryExecAux (cfg : RetryConfig) (work : Nat → Except ProviderError α) :
    Nat → Nat → Except ProviderError α × Nat
  | attempt, fuel =>
    match work attempt with
    | .ok a => (.ok a, attempt)
    | .error e =>
      match fuel with
      | 0 => (.error e, attempt)
      | fuel' + 1 =>
        if shouldHandle cfg e then retryExecAux cfg work (attempt + 1) fuel'
        else (.error e, attempt)

/-- Modelled from the spec: execute the work under the retry policy, attempts
1 through `maxAttempts`. -/
def retryExec (cfg : RetryConfig) (work : Nat → Except ProviderError α) :
    Except ProviderError α × Nat :=
  retryExecAux cfg work 1 (cfg.maxAttempts - 1)

/-- The retry configuration of claim C4: maxAttempts 3, baseDelayMs 200,
multiplier 2, maxDelayMs 2000, no condition (the `createRetryPolicy`
defaults). -/
def retryConfigC4 : RetryConfig :=
  { maxAttempts := 3, baseDelayMs := 200, maxDelayMs := 2000, multiplier := 2,
    condition := none }

/-- The retry configuration the `amadeus.api` path runs under:
`AmadeusClient.get` (`part_004` lines 131-154) passes `enableRetry: true` and
no `retryAttempts` and no condition, so `composePolicy` (`part_013` lines
25-36) builds `createRetryPolicy` with maxAttempts 2, baseDelayMs 200,
maxDelayMs 2000, multiplier 2 and no condition. -/
def amadeusApiRetryConfig : RetryConfig :=
  { maxAttempts := 2, baseDelayMs := 200, maxDelayMs := 2000, multiplier := 2,
    condition := none }

/-- The number of attempts used never exceeds `attempt + fuel`. -/
theorem retryExecAux_attempts_le (cfg : RetryConfig)
    (work : Nat → Except ProviderError α) :
    ∀ fuel attempt, (retryExecAux cfg work attempt fuel).2 ≤ attempt + fuel := by
  intro fuel
  induction fuel with
  | zero =>
      intro attempt
      rw [retryExecAux]
      cases work attempt <;> simp
  | succ fuel' ih =>
      intro attempt
      rw [retryExecAux]
      cases work attempt with
      | ok a => simp
      | error e =>
          simp only
          by_cases hs : shouldHandle cfg e
          · simp only [hs, if_true]
            calc (retryExecAux cfg work (attempt + 1) fuel').2
                ≤ attempt + 1 + fuel' := ih (attempt + 1)
              _ = attempt + (fuel' + 1) := by omega
          · simp [hs]

/-- If every attempt up to `attempt + fuel` fails and every failure is
retry-eligible, the loop surfaces the failure of the last attempt. -/
theorem retryExecAux_exhaustion (cfg : RetryConfig)
    (work : Nat → Except ProviderError α) :
    ∀ fuel attempt,
      (∀ n, attempt ≤ n → n ≤ attempt + fuel → ∃ e, work n = .error e ∧
        shouldHandle cfg e = true) →
      (retryExecAux cfg work attempt fuel) = (work (attempt + fuel), attempt + fuel) := by
  intro fuel
  induction fuel with
  | zero =>
      intro attempt hfail
      obtain ⟨e, he, -⟩ := hfail attempt le_rfl (by omega)
      rw [retryExecAux, he]
      simp [he]
  | succ fuel' ih =>
      intro attempt hfail
      obtain ⟨e, he, hs⟩ := hfail attempt le_rfl (by omega)
      rw [retryExecAux, he]
      simp only [hs, if_true]
      have := ih (attempt + 1) (fun n h1 h2 => hfail n (by omega) (by omega))
      rw [this]
      have harg : attempt + 1 + fuel' = attempt + (fuel' + 1) := by omega
      rw [harg]

/-! ## Claims C4-C5 -/

/-- C4. Under maxAttempts 3, baseDelayMs 200, multiplier 2, maxDelayMs 2000:
the work runs at most 3 times per call; attempt 1 has no delay and the delay
before attempt n ≥ 2 is min(200·2^(n-2), 2000), so the delays for attempts
1, 2, 3 are 0, 200, 400; and when all three attempts fail, the failure of the
last attempt is surfaced. -/
theorem C4_retry_bounds_delays_and_exhaustion :
    (∀ work : Nat → Except ProviderError Unit, (retryExec retryConfigC4 work).2 ≤ 3) ∧
    (retryDelay retryConfigC4 1 = 0 ∧ retryDelay retryConfigC4 2 = 200 ∧
      retryDelay retryConfigC4 3 = 400) ∧
    (∀ n, 2 ≤ n → retryDelay retryConfigC4 n = min (200 * 2 ^ (n - 2)) 2000) ∧
    (∀ (work : Nat → Except ProviderError Unit) (e1 e2 e3 : ProviderError),
      work 1 = .error e1 → work 2 = .error e2 → work 3 = .error e3 →
      (retryExec retryConfigC4 work).1 = .error e3) := by
  refine ⟨?_, ⟨by decide, by decide, by decide⟩, ?_, ?_⟩
  · intro work
    have := retryExecAux_attempts_le retryConfigC4 work 2 1
    simpa [retryExec, retryConfigC4] using this
  · intro n hn
    simp [retryDelay, retryConfigC4, Nat.not_le.mpr (by omega : 1 < n)]
  · intro work e1 e2 e3 h1 h2 h3
    have hfail : ∀ n, 1 ≤ n → n ≤ 1 + 2 → ∃ e, work n = .error e ∧
        shouldHandle retryConfigC4 e = true := by
      intro n hl hr
      interval_cases n
      · exact ⟨e1, h1, rfl⟩
      · exact ⟨e2, h2, rfl⟩
      · exact ⟨e3, h3, rfl⟩
    have hres := retryExecAux_exhaustion retryConfigC4 work 2 1 hfail
    show (retryExecAux retryConfigC4 work 1 2).1 = .error e3
    rw [hres]
    simpa using h3

/-- Witness for C4: every attempt failing with status 503 uses 3 attempts at
most and surfaces the last failure; the delay before attempt 2 is 200 ms. -/
theorem C4_witness :
    (retryExec retryConfigC4 (fun _ => (.error ⟨503⟩ : Except ProviderError Unit))).2 ≤ 3 ∧
    retryDelay retryConfigC4 2 = 200 ∧
    (retryExec retryConfigC4 (fun _ => (.error ⟨503⟩ : Except ProviderError Unit))).1 =
      .error ⟨503⟩ := by
  exact ⟨C4_retry_bounds_delays_and_exhaustion.1 _,
    C4_retry_bounds_delays_and_exhaustion.2.1.2.1,
    C4_retry_bounds_delays_and_exhaustion.2.2.2 _ ⟨503⟩ ⟨503⟩ ⟨503⟩ rfl rfl rfl⟩

/-- C5 counterexample. On the `amadeus.api` path (no retry condition supplied
anywhere between `AmadeusClient.get` and `createRetryPolicy`), work that fails
with HTTP status 400 is invoked a second time within the same execute call:
the attempt count is 2, not 1, refuting "after a failure carrying status 400,
the wrapped work is not invoked again". -/
theorem C5_counterexample :
    (retryExec amadeusApiRetryConfig
      (fun _ => (.error ⟨400⟩ : Except ProviderError Unit))).2 = 2 := by
  rfl

/-- C5 amended. The default retry predicate is `handleAll`: with no condition
supplied (as on the `amadeus.api` path), a failure carrying status 400 is
retry-eligible like any other failure, so after a first-attempt 400 failure
the wrapped work is invoked again — exactly once more, since that path runs
with maxAttempts 2. -/
theorem C5_amended_400_is_retried :
    shouldHandle amadeusApiRetryConfig ⟨400⟩ = true ∧
    (∀ work : Nat → Except ProviderError Unit,
      work 1 = .error ⟨400⟩ → (retryExec amadeusApiRetryConfig work).2 = 2) := by
  refine ⟨rfl, ?_⟩
  intro work hw
  show (retryExecAux amadeusApiRetryConfig work 1 1).2 = 2
  rw [retryExecAux, hw]
  simp only [shouldHandle, amadeusApiRetryConfig, if_true]
  rw [retryExecAux]
  cases work 2 <;> simp

/-- Witness for C5's amended theorem at concrete always-400 work: the 400
failure is retry-eligible and the work runs twice. -/
theorem C5_witness :
    shouldHandle amadeusApiRetryConfig ⟨400⟩ = true ∧
    (retryExec amadeusApiRetryConfig
      (fun _ => (.error ⟨400⟩ : Except ProviderError Unit))).2 = 2 := by
  exact ⟨C5_amended_400_is_retried.1,
    C5_amended_400_is_retried.2 (fun _ => (.error ⟨400⟩ : Except ProviderError Unit)) rfl⟩

/-! ## Cache service -/

/-- A JavaScript value as stored through the cache layer; `vnull` models the
JS `null` that `CacheService.get` returns on a miss and that `JSON.parse`
yields for the string `"null"`. -/
inductive JsValue where
  | vnull
  | vbool (b : Bool)
  | vnum (n : Int)
  | vstr (s : String)
deriving DecidableEq, Repr

/-- JS truthiness, as used by `if (cachedToken)` in the token service. -/
def JsValue.truthy : JsValue → Bool
  | .vnull => false
  | .vbool b => b
  | .vnum n => n != 0
  | .vstr s => s != ""

/-- `JSON.stringify` on the modelled values (strings are assumed free of
quotes and backslashes, which the repo's keys and tokens are). -/
def jsonStringify : JsValue → String
  | .vnull => "null"
  | .vbool true => "true"
  | .vbool false => "false"
  | .vnum n => toString n
  | .vstr s => "\"" ++ s ++ "\""

/-- Decimal digits of a JSON number, most significant first; `none` when a
character is not a digit (or the list is empty). -/
def digitsVal : List Char → Option Nat
  | [] => none
  | cs =>
    cs.foldl
      (fun acc c =>
        match acc with
        | none => none
        | some n => if c.isDigit then some (n * 10 + (c.toNat - 48)) else none)
      (some 0)

/-- A JSON integer literal, with an optional leading minus sign. -/
def parseIntChars : List Char → Option Int
  | [] => none
  | c :: cs =>
    if c = '-' then (digitsVal cs).map (fun n => -(n : Int))
    else (digitsVal (c :: cs)).map (fun n => (n : Int))

/-- `JSON.parse` on the modelled values; `none` models a parse failure
(`catch` branch of `CacheService.get`). -/
def jsonParse (raw : String) : Option JsValue :=
  if raw = "null" then some .vnull
  else if raw = "true" then some (.vbool true)
  else if raw = "false" then some (.vbool false)
  else
    match raw.data with
    | [] => none
    | c :: cs =>
      if c = '"' then
        if cs ≠ [] ∧ cs.getLast? = some '"' then some (.vstr ⟨cs.dropLast⟩)
        else none
      else
        match parseIntChars (c :: cs) with
        | some n => some (.vnum n)
        | none => none

/-- The underlying key-value store client (ioredis behind `CACHE_CLIENT`): its
keyspace of raw stored strings, plus fault-injection flags saying which client
operations fail. `failScanSetup` is a synchronous throw while starting the
pattern scan; `failScanStream` is an asynchronous `error` event on the scan
stream. -/
structure CacheClient where
  store : List (String × String)
  failGet : Bool
  failSet : Bool
  failDel : Bool
  failScanSetup : Bool
  failScanStream : Bool
deriving DecidableEq, Repr

/-- A fully healthy client over a given keyspace. -/
def healthyClient (store : List (String × String)) : CacheClient :=
  { store := store, failGet := false, failSet := false, failDel := false,
    failScanSetup := false, failScanStream := false }

/-- `client.get(key)`: the raw stored string, if the key exists. -/
def CacheClient.lookup (c : CacheClient) (key : String) : Option String :=
  (c.store.find? (fun p => p.1 == key)).map (fun p => p.2)

/-- `client.set(key, payload, 'EX', ttl)`: store or overwrite the raw string. -/
def CacheClient.insert (c : CacheClient) (key raw : String) : CacheClient :=
  { c with store := (key, raw) :: c.store.filter (fun p => p.1 != key) }

/-- `client.del(key)`: remove the key. -/
def CacheClient.remove (c : CacheClient) (key : String) : CacheClient :=
  { c with store := c.store.filter (fun p => p.1 != key) }

/-- `CacheService` state: the injected client plus the hit/miss counters
(`cache.service.ts` lines 106-109). -/
structure CacheService where
  client : CacheClient
  hitCount : Nat
  missCount : Nat
deriving DecidableEq, Repr

/-- `CacheService.get` (`cache.service.ts` lines 132-179): any client error is
caught and treated as a miss returning null; an absent key counts a miss and
returns null; a present key counts a hit and returns `JSON.parse` of the raw
string, falling back to the raw string itself when parsing fails. -/
def CacheService.get (s : CacheService) (key : String) : JsValue × CacheService :=
  if s.client.failGet then
    (.vnull, s)
  else
    match s.client.lookup key with
    | none => (.vnull, { s with missCount := s.missCount + 1 })
    | some raw =>
      let s1 := { s with hitCount := s.hitCount + 1 }
      match jsonParse raw with
      | some v => (v, s1)
      | none => (.vstr raw, s1)

/-- `CacheService.set` (`cache.service.ts` lines 183-210): serialize and write
with TTL; a client failure is logged and swallowed, leaving the store
untouched. The TTL parameter is kept for shape; expiry itself is the store's
behaviour, not the service's. -/
def CacheService.set (s : CacheService) (key : String) (value : JsValue)
    (ttlSeconds : Nat) : CacheService :=
  if s.client.failSet then s
  else { s with client := s.client.insert key (jsonStringify value) }

/-- `CacheService.delete` (`cache.service.ts` lines 213-226): fail-open single
removal; a client failure is logged and swallowed. -/
def CacheService.delete (s : CacheService) (key : String) : CacheService :=
  if s.client.failDel then s
  else { s with client := s.client.remove key }

/-- Redis glob matching restricted to the shapes the repo uses: a trailing
`*` wildcard or an exact key. -/
def patternMatches (pattern key : String) : Bool :=
  if pattern.endsWith "*" then key.startsWith (pattern.dropRight 1)
  else key == pattern

/-- Hard cap on keys removed by one pattern delete
(`MAX_KEYS_TO_DELETE`, `cache.service.ts` line 265). -/
def MAX_KEYS_TO_DELETE : Nat := 10000

/-- Outcome of `deleteByPattern` as the caller observes it: the promise
resolves with a count, or it rejects with the underlying store error. -/
inductive PatternDeleteResult where
  | ok (count : Nat)
  | rejected
deriving DecidableEq, Repr

/-- `CacheService.deleteByPattern` (`cache.service.ts` lines 233-329). A
synchronous failure starting the scan is caught by the outer `try` and yields
count 0. The scan results are collected, capped at `MAX_KEYS_TO_DELETE`, and
deleted in batches. Because the code does `return new Promise(...)` inside the
`try`, an asynchronous failure — the scan stream's `error` event, or a `del`
failure inside the batch loop — calls `reject` on the already-returned
promise, which the outer `catch` can no longer intercept: the store error
propagates to the caller. -/
def CacheService.deleteByPattern (s : CacheService) (pattern : String) :
    PatternDeleteResult × CacheService :=
  if s.client.failScanSetup then
    (.ok 0, s)
  else if s.client.failScanStream then
    (.rejected, s)
  else
    let matched := (s.client.store.map (fun p => p.1)).filter (patternMatches pattern)
    if matched.isEmpty then
      (.ok 0, s)
    else if s.client.failDel then
      (.rejected, s)
    else
      let toProcess := matched.take MAX_KEYS_TO_DELETE
      (.ok toProcess.length,
        { s with client :=
          { s.client with store := s.client.store.filter (fun p => !toProcess.contains p.1) } })

/-- `CacheService.wrap` (`cache.service.ts` lines 333-360, cache-aside): on a
non-null cached value return it at once; otherwise run the producer, start a
best-effort write-back whose failure is absorbed by `.catch`, and return the
producer's result. The producer is modelled by the value it would produce;
the third component counts how many times it was invoked. -/
def CacheService.wrap (s : CacheService) (key : String) (ttlSeconds : Nat)
    (producer : JsValue) : JsValue × CacheService × Nat :=
  let c := s.get key
  if c.1 != .vnull then (c.1, c.2, 0)
  else
    let s2 := c.2.set key producer ttlSeconds
    (producer, s2, 1)

/-- `get` never changes the client (store or fault flags), only the counters. -/
theorem CacheService.get_client (s : CacheService) (key : String) :
    ((s.get key).2).client = s.client := by
  unfold CacheService.get
  by_cases hf : s.client.failGet
  · simp [hf]
  · simp only [hf, if_false]
    cases s.client.lookup key with
    | none => rfl
    | some raw =>
        simp only
        cases jsonParse raw <;> rfl

/-- The value `CacheService.get` returns, as a function of the client alone
(the counters never influence the returned value). -/
def getValue (c : CacheClient) (key : String) : JsValue :=
  if c.failGet then .vnull
  else
    match c.lookup key with
    | none => .vnull
    | some raw =>
      match jsonParse raw with
      | some v => v
      | none => .vstr raw

/-- `get`'s returned value is `getValue` of the client. -/
theorem CacheService.get_fst (s : CacheService) (key : String) :
    (s.get key).1 = getValue s.client key := by
  unfold CacheService.get getValue
  by_cases hf : s.client.failGet
  · simp [hf]
  · simp only [hf, if_false]
    cases s.client.lookup key with
    | none => rfl
    | some raw =>
        simp only
        cases jsonParse raw <;> rfl

/-- After removing a key, looking it up finds nothing. -/
theorem CacheClient.lookup_remove (c : CacheClient) (key : String) :
    (c.remove key).lookup key = none := by
  unfold CacheClient.remove CacheClient.lookup
  simp only [Option.map_eq_none', List.find?_eq_none, List.mem_filter,
    beq_iff_eq, bne_iff_ne, ne_eq]
  intro p hp
  exact hp.2

/-- After inserting a key, looking it up finds the inserted raw string. -/
theorem CacheClient.lookup_insert (c : CacheClient) (key raw : String) :
    (c.insert key raw).lookup key = some raw := by
  unfold CacheClient.insert CacheClient.lookup
  simp [List.find?]

/-- When the cached value is non-null, `wrap` returns it without producing. -/
theorem CacheService.wrap_hit (s : CacheService) (key : String) (ttl : Nat)
    (p : JsValue) (h : (s.get key).1 ≠ .vnull) :
    s.wrap key ttl p = ((s.get key).1, (s.get key).2, 0) := by
  unfold CacheService.wrap
  simp [h]

/-- When the cached value is null, `wrap` produces, writes back and returns
the produced value. -/
theorem CacheService.wrap_miss (s : CacheService) (key : String) (ttl : Nat)
    (p : JsValue) (h : (s.get key).1 = .vnull) :
    s.wrap key ttl p = (p, (s.get key).2.set key p ttl, 1) := by
  unfold CacheService.wrap
  simp [h]

/-! ## Claims C6, C7, C10 -/

/-- A client whose every operation fails, holding one key, with the scan
stream emitting an asynchronous error. -/
def faultyCacheService : CacheService :=
  { client :=
      { store := [("search:flights:JFK:1", "\"v\"")], failGet := true,
        failSet := true, failDel := true, failScanSetup := false,
        failScanStream := true },
    hitCount := 0, missCount := 0 }

/-- C6 (bug exhibit). On a failing underlying store, `get` degrades to a null
miss, `set` and `delete` return normally, and `wrap` still returns the
producer's result even though its write-back failed — but `deleteByPattern`
does NOT return a count: the scan stream's error event rejects the promise
the method already returned (the `return new Promise` sits inside the `try`,
so the outer `catch` — whose comment says the error is logged and not thrown —
never runs), and the store error propagates to the caller. -/
theorem C6_deleteByPattern_propagates_store_error :
    (faultyCacheService.get "search:flights:JFK:1").1 = .vnull ∧
    faultyCacheService.set "k" (.vstr "v") 60 = faultyCacheService ∧
    faultyCacheService.delete "search:flights:JFK:1" = faultyCacheService ∧
    (faultyCacheService.wrap "k" 60 (.vstr "w")).1 = .vstr "w" ∧
    (faultyCacheService.deleteByPattern "search:flights:JFK:*").1 =
      .rejected := by
  decide

/-- C7. If a key holds an unexpired cached value (its `get` observes a
non-null value), two sequential `wrap` calls on it invoke the producer at most
once in total (in fact zero times); and once `delete(key)` takes effect, the
next `wrap` invokes the producer again. -/
theorem C7_wrap_producer_at_most_once
    (s : CacheService) (key : String) (ttl1 ttl2 : Nat) (p1 p2 : JsValue)
    (h : (s.get key).1 ≠ .vnull) :
    (s.wrap key ttl1 p1).2.2 +
      (((s.wrap key ttl1 p1).2.1).wrap key ttl2 p2).2.2 ≤ 1 ∧
    (s.client.failDel = false →
      ((s.delete key).wrap key ttl1 p1).2.2 = 1) := by
  constructor
  · have e1 := CacheService.wrap_hit s key ttl1 p1 h
    rw [e1]
    have h2 : (((s.get key).2).get key).1 ≠ .vnull := by
      rw [CacheService.get_fst, CacheService.get_client, ← CacheService.get_fst]
      exact h
    have e2 := CacheService.wrap_hit ((s.get key).2) key ttl2 p2 h2
    rw [e2]
    simp
  · intro hD
    have hd : s.delete key = { s with client := s.client.remove key } := by
      simp [CacheService.delete, hD]
    have hnull : ((s.delete key).get key).1 = .vnull := by
      rw [hd, CacheService.get_fst]
      show getValue (s.client.remove key) key = .vnull
      unfold getValue
      by_cases hg : (s.client.remove key).failGet
      · simp [hg]
      · simp [hg, CacheClient.lookup_remove]
    rw [CacheService.wrap_miss _ _ _ _ hnull]

/-- Witness for C7 on a healthy one-key store. -/
theorem C7_witness :
    ((⟨healthyClient [("k", "\"v\"")], 0, 0⟩ : CacheService).wrap "k" 60 (.vstr "p1")).2.2 +
      ((((⟨healthyClient [("k", "\"v\"")], 0, 0⟩ : CacheService).wrap "k" 60
        (.vstr "p1")).2.1).wrap "k" 60 (.vstr "p2")).2.2 ≤ 1 ∧
    (((⟨healthyClient [("k", "\"v\"")], 0, 0⟩ : CacheService).delete "k").wrap "k" 60
      (.vstr "p1")).2.2 = 1 := by
  have t := C7_wrap_producer_at_most_once
    (⟨healthyClient [("k", "\"v\"")], 0, 0⟩ : CacheService) "k" 60 60
    (.vstr "p1") (.vstr "p2") (by decide)
  exact ⟨t.1, t.2 rfl⟩

/-- C10. When the producer yields null on a miss, `wrap` returns null and the
producer ran once; the entry written back is the serialization of null, which
`get` reads back as null — exactly as it reads an absent key — so the next
`wrap` on that key invokes its producer again. -/
theorem C10_null_producer_result_never_served
    (s : CacheService) (key : String) (ttl ttl2 : Nat) (p : JsValue)
    (h : (s.get key).1 = .vnull) :
    (s.wrap key ttl .vnull).1 = .vnull ∧
    (s.wrap key ttl .vnull).2.2 = 1 ∧
    (((s.wrap key ttl .vnull).2.1).get key).1 = .vnull ∧
    (((s.wrap key ttl .vnull).2.1).wrap key ttl2 p).2.2 = 1 ∧
    (∀ s' : CacheService, s'.client.lookup key = none → (s'.get key).1 = .vnull) ∧
    (∀ s' : CacheService,
      s'.client.lookup key = some (jsonStringify .vnull) → (s'.get key).1 = .vnull) := by
  have hw := CacheService.wrap_miss s key ttl .vnull h
  have h3 : ((((s.get key).2).set key .vnull ttl).get key).1 = .vnull := by
    rw [CacheService.get_fst]
    by_cases hfs : s.client.failSet
    · have hcl : (((s.get key).2).set key .vnull ttl).client = s.client := by
        simp [CacheService.set, CacheService.get_client, hfs]
      rw [hcl, ← CacheService.get_fst]
      exact h
    · have hcl : (((s.get key).2).set key .vnull ttl).client =
          s.client.insert key (jsonStringify .vnull) := by
        simp [CacheService.set, CacheService.get_client, hfs]
      rw [hcl]
      unfold getValue
      by_cases hg : (s.client.insert key (jsonStringify .vnull)).failGet
      · simp [hg]
      · simp only [hg, if_false, CacheClient.lookup_insert]
        show (match jsonParse "null" with
          | some v => v
          | none => .vstr "null") = JsValue.vnull
        rfl
  refine ⟨by rw [hw], by rw [hw], by rw [hw]; exact h3, ?_, ?_, ?_⟩
  · rw [hw]
    show (((s.get key).2.set key .vnull ttl).wrap key ttl2 p).2.2 = 1
    rw [CacheService.wrap_miss _ _ _ _ h3]
  · intro s' h5
    unfold CacheService.get
    by_cases hg : s'.client.failGet
    · simp [hg]
    · simp [hg, h5]
  · intro s' h6
    unfold CacheService.get
    by_cases hg : s'.client.failGet
    · simp [hg]
    · simp only [hg, if_false, h6]
      show ((match jsonParse "null" with
        | some v => (v, { s' with hitCount := s'.hitCount + 1 })
        | none => (.vstr "null", { s' with hitCount := s'.hitCount + 1 })) :
          JsValue × CacheService).1 = JsValue.vnull
      rfl

/-- Witness for C10 on a healthy empty store. -/
theorem C10_witness :
    ((⟨healthyClient [], 0, 0⟩ : CacheService).wrap "k" 60 .vnull).1 = .vnull ∧
    ((⟨healthyClient [], 0, 0⟩ : CacheService).wrap "k" 60 .vnull).2.2 = 1 ∧
    ((((⟨healthyClient [], 0, 0⟩ : CacheService).wrap "k" 60 .vnull).2.1).wrap "k" 60
      (.vstr "fresh")).2.2 = 1 := by
  have t := C10_null_producer_result_never_served
    (⟨healthyClient [], 0, 0⟩ : CacheService) "k" 60 60 (.vstr "fresh") (by decide)
  exact ⟨t.1, t.2.1, t.2.2.2.1⟩

/-! ## TTL selector -/

/-- The validation failures `calculateCacheTtl` can raise
(`BadRequestException` messages, `part_010` lines 168-226). -/
inductive TtlValidationError where
  | invalidDeparture
  | pastDeparture
  | invalidReturn
  | pastReturn
  | returnBeforeDeparture
deriving DecidableEq, Repr

/-- `SearchService.calculateCacheTtl` (`part_010` lines 168-226). Dates are
already normalized to midnight, so they are modelled as whole-day numbers
(days since an epoch); `none` models a date string that parses to NaN. The
day differences the code computes with `Math.ceil((a-b)/86400000)` are then
exactly `a - b`. Returns the TTL in seconds or the validation error thrown. -/
def calculateCacheTtl (today : Int) (departureDate : Option Int)
    (returnDate : Option (Option Int)) : Except TtlValidationError Nat :=
  match departureDate with
  | none => .error .invalidDeparture
  | some departure =>
    let diffDaysDeparture := departure - today
    if diffDaysDeparture < 0 then .error .pastDeparture
    else
      let step : Except TtlValidationError Int :=
        match returnDate with
        | none => .ok diffDaysDeparture
        | some none => .error .invalidReturn
        | some (some ret) =>
          let diffDaysReturn := ret - today
          if diffDaysReturn < 0 then .error .pastReturn
          else if ret < departure then .error .returnBeforeDeparture
          else if diffDaysReturn < diffDaysDeparture then .ok diffDaysReturn
          else .ok diffDaysDeparture
      match step with
      | .error e => .error e
      | .ok diffDays =>
        if 7 < diffDays then .ok 86400
        else if 1 ≤ diffDays then .ok 21600
        else .ok 3600

/-! ## Claim C8 -/

/-- C8. For valid non-past dates with return ≥ departure, the TTL is the
bucket of the minimum days-until value: strictly more than 7 days gives 24
hours (86400 s), 1 through 7 days gives 6 hours (21600 s), and 0 days gives
1 hour (3600 s); in particular exactly 7 days gives the 6-hour bucket and 8
days the 24-hour one. An unparseable or past date (departure or return), or a
return before the departure, raises a validation error and never yields a
bucket. -/
theorem C8_ttl_buckets_and_validation :
    (∀ today dep : Int, today ≤ dep →
      calculateCacheTtl today (some dep) none =
        .ok (if 7 < dep - today then 86400
          else if 1 ≤ dep - today then 21600 else 3600)) ∧
    (∀ today dep ret : Int, today ≤ dep → today ≤ ret → dep ≤ ret →
      calculateCacheTtl today (some dep) (some (some ret)) =
        .ok (if 7 < min (dep - today) (ret - today) then 86400
          else if 1 ≤ min (dep - today) (ret - today) then 21600 else 3600)) ∧
    (∀ today : Int,
      calculateCacheTtl today (some (today + 7)) none = .ok 21600 ∧
      calculateCacheTtl today (some (today + 8)) none = .ok 86400 ∧
      calculateCacheTtl today (some today) none = .ok 3600) ∧
    (∀ today : Int, ∀ r : Option (Option Int),
      calculateCacheTtl today none r = .error .invalidDeparture) ∧
    (∀ today dep : Int, ∀ r : Option (Option Int), dep < today →
      calculateCacheTtl today (some dep) r = .error .pastDeparture) ∧
    (∀ today dep : Int, today ≤ dep →
      calculateCacheTtl today (some dep) (some none) = .error .invalidReturn) ∧
    (∀ today dep ret : Int, today ≤ dep → ret < today →
      calculateCacheTtl today (some dep) (some (some ret)) = .error .pastReturn) ∧
    (∀ today dep ret : Int, today ≤ dep → today ≤ ret → ret < dep →
      calculateCacheTtl today (some dep) (some (some ret)) =
        .error .returnBeforeDeparture) := by
  refine ⟨?_, ?_, ?_, ?_, ?_, ?_, ?_, ?_⟩
  · intro today dep h
    simp only [calculateCacheTtl,
      if_neg (not_lt.mpr (by omega : (0:Int) ≤ dep - today))]
    split_ifs <;> rfl
  · intro today dep ret h1 h2 h3
    have hmin : min (dep - today) (ret - today) = dep - today := by omega
    rw [hmin]
    simp only [calculateCacheTtl]
    rw [if_neg (by omega : ¬ dep - today < 0)]
    simp only [if_neg (by omega : ¬ ret - today < 0), if_neg (not_lt.mpr h3),
      if_neg (by omega : ¬ ret - today < dep - today)]
    split_ifs <;> rfl
  · intro today
    refine ⟨?_, ?_, ?_⟩ <;> simp [calculateCacheTtl]
  · intro today r
    rfl
  · intro today dep r h
    simp [calculateCacheTtl, h]
  · intro today dep h
    simp [calculateCacheTtl, not_lt.mpr (by omega : (0:Int) ≤ dep - today)]
  · intro today dep ret h1 h2
    simp [calculateCacheTtl, not_lt.mpr (by omega : (0:Int) ≤ dep - today),
      (by omega : ret - today < 0)]
  · intro today dep ret h1 h2 h3
    simp [calculateCacheTtl, not_lt.mpr (by omega : (0:Int) ≤ dep - today),
      not_lt.mpr (by omega : (0:Int) ≤ ret - today), h3]

/-- Witness for C8 at concrete dates: departure 7 days out is the 6-hour
bucket, 8 days the 24-hour bucket, today the 1-hour bucket, a round trip
leaving in 10 days and returning in 12 the 24-hour bucket, and yesterday a
validation error. -/
theorem C8_witness :
    calculateCacheTtl 100 (some 107) none = .ok 21600 ∧
    calculateCacheTtl 100 (some 108) none = .ok 86400 ∧
    calculateCacheTtl 100 (some 100) none = .ok 3600 ∧
    calculateCacheTtl 100 (some 110) (some (some 112)) = .ok 86400 ∧
    calculateCacheTtl 100 (some 99) none = .error .pastDeparture := by
  have t := C8_ttl_buckets_and_validation
  refine ⟨(t.2.2.1 100).1, (t.2.2.1 100).2.1, (t.2.2.1 100).2.2, ?_, ?_⟩
  · have := t.2.1 100 110 112 (by omega) (by omega) (by omega)
    simpa using this
  · exact t.2.2.2.2.1 100 99 none (by omega)

/-! ## Amadeus token service -/

/-- The OAuth2 response body as `getAccessToken` consumes it; the fields are
optional to model an absent or malformed provider payload. -/
structure AmadeusTokenResponse where
  access_token : Option String
  expires_in : Option Int
deriving DecidableEq, Repr

/-- How `getAccessToken` can fail: the resilience-guarded fetch threw, or the
returned token was empty (`AmadeusApiError` with "Invalid Token"). -/
inductive TokenError where
  | fetchFailed
  | invalidToken
deriving DecidableEq, Repr

/-- The well-known credential cache key (`part_006` line 27). -/
def tokenCacheKey : String := "auth:amadeus:token"

/-- JS `!t || t.trim() === ''` for a string `t`: true iff the string is empty
or whitespace-only. -/
def jsBlank (s : String) : Bool := s.data.all Char.isWhitespace

/-- `AmadeusTokenService.getAccessToken` (`part_006` lines 62-141). Checks the
cache under the well-known key and returns a truthy cached token at once; on a
miss it runs the resilience-guarded fetch (modelled by its result `fetch`),
rejects an absent or blank `access_token` with an error, merely logs a warning
when `expires_in` is absent or non-positive, then caches the token under the
configured TTL and returns it. -/
def getAccessToken (s : CacheService) (tokenCacheTtl : Nat)
    (fetch : Except Unit AmadeusTokenResponse) :
    Except TokenError JsValue × CacheService :=
  let c := s.get tokenCacheKey
  if c.1.truthy then (.ok c.1, c.2)
  else
    match fetch with
    | .error _ => (.error .fetchFailed, c.2)
    | .ok resp =>
      match resp.access_token with
      | none => (.error .invalidToken, c.2)
      | some t =>
        if jsBlank t then (.error .invalidToken, c.2)
        else (.ok (.vstr t), c.2.set tokenCacheKey (.vstr t) tokenCacheTtl)

/-! ## Claim C9 -/

/-- C9 counterexample. On a cache miss, a fetched credential whose declared
expiry is 0 — not a positive number — does NOT make the call fail: the token
is accepted and returned, refuting "if … the declared expiry is not a
positive number, the call fails with an error". -/
theorem C9_counterexample_nonpositive_expiry_accepted :
    (getAccessToken ⟨healthyClient [], 0, 0⟩ 1790
      (.ok ⟨some "tok", some 0⟩)).1 = .ok (.vstr "tok") := by
  rfl

/-- C9 amended. On a cache miss, `getAccessToken` runs the fetch through the
resilience executor; a failed fetch or an empty (absent or blank) token fails
with an error, while the declared expiry is NOT validated — an absent or
non-positive `expires_in` only logs a warning — and any non-blank token is
stored in the cache (when the store write succeeds) and returned. -/
theorem C9_miss_validates_token_but_not_expiry
    (s : CacheService) (ttl : Nat) (resp : AmadeusTokenResponse)
    (hmiss : ((s.get tokenCacheKey).1).truthy = false) :
    ((getAccessToken s ttl (.error ())).1 = .error .fetchFailed) ∧
    (resp.access_token = none →
      (getAccessToken s ttl (.ok resp)).1 = .error .invalidToken) ∧
    (∀ t, resp.access_token = some t → jsBlank t = true →
      (getAccessToken s ttl (.ok resp)).1 = .error .invalidToken) ∧
    (∀ t, resp.access_token = some t → jsBlank t = false →
      (getAccessToken s ttl (.ok resp)).1 = .ok (.vstr t) ∧
      (s.client.failSet = false →
        (getAccessToken s ttl (.ok resp)).2.client.lookup tokenCacheKey =
          some (jsonStringify (.vstr t)))) := by
  refine ⟨?_, ?_, ?_, ?_⟩
  · simp [getAccessToken, hmiss]
  · intro ha
    simp [getAccessToken, hmiss, ha]
  · intro t ha hb
    simp [getAccessToken, hmiss, ha, hb]
  · intro t ha hb
    constructor
    · simp [getAccessToken, hmiss, ha, hb]
    · intro hfs
      have h2 : (getAccessToken s ttl (.ok resp)).2 =
          ((s.get tokenCacheKey).2).set tokenCacheKey (.vstr t) ttl := by
        simp [getAccessToken, hmiss, ha, hb]
      rw [h2]
      have hcl : (((s.get tokenCacheKey).2).set tokenCacheKey (.vstr t) ttl).client =
          s.client.insert tokenCacheKey (jsonStringify (.vstr t)) := by
        simp [CacheService.set, CacheService.get_client, hfs]
      rw [hcl, CacheClient.lookup_insert]

/-- Witness for C9's amended theorem: a miss with a blank token fails, and a
miss with token "tok" and expiry 0 succeeds and stores `"tok"`. -/
theorem C9_witness :
    (getAccessToken ⟨healthyClient [], 0, 0⟩ 1790
      (.ok ⟨some "  ", some 3600⟩)).1 = .error .invalidToken ∧
    (getAccessToken ⟨healthyClient [], 0, 0⟩ 1790
      (.ok ⟨some "tok", some 0⟩)).2.client.lookup tokenCacheKey =
      some "\"tok\"" := by
  have t1 := (C9_miss_validates_token_but_not_expiry
    (⟨healthyClient [], 0, 0⟩ : CacheService) 1790 ⟨some "  ", some 3600⟩
    (by decide)).2.2.1 "  " rfl (by decide)
  have t2 := ((C9_miss_validates_token_but_not_expiry
    (⟨healthyClient [], 0, 0⟩ : CacheService) 1790 ⟨some "tok", some 0⟩
    (by decide)).2.2.2 "tok" rfl (by decide)).2 rfl
  exact ⟨t1, t2⟩
